import Mathlib

/-!
Shallow embedding of the fan-in aggregation core and the global execution
context of the repository (src/mcp_agent/workflows/parallel/fan_in.py and
src/mcp_agent/context.py), together with theorems settling the spec claims.
-/

namespace McpAgent

/-- A message produced by a worker agent: either a plain Python `str`, or an
opaque message object (`MessageT` / `MessageParamT`) whose `str()` rendering
is the stored string.  `fan_in.py` renders any non-`str` element via
`str(msg)`. -/
inductive Msg
  | str (s : String)
  | obj (rendering : String)
deriving DecidableEq

/-- `str(msg)`: a `str` renders as itself, an object by its `str()` form. -/
def strOfMsg : Msg → String
  | Msg.str s => s
  | Msg.obj r => r

/-- A value appearing as a dictionary value or list item of `FanInInput`:
a `str`, a list of messages, or a value of unrecognized type. -/
inductive PyVal
  | str (s : String)
  | list (msgs : List Msg)
  | other
deriving DecidableEq

/-- `isinstance(v, str)` -/
def PyVal.isStr : PyVal → Bool
  | PyVal.str _ => true
  | _ => false

/-- `isinstance(v, list)` -/
def PyVal.isList : PyVal → Bool
  | PyVal.list _ => true
  | _ => false

/-- Extract the string payload (only used under an `isStr` guard). -/
def PyVal.asString : PyVal → String
  | PyVal.str s => s
  | _ => ""

/-- Extract the message-list payload (only used under an `isList` guard). -/
def PyVal.asMsgs : PyVal → List Msg
  | PyVal.list ms => ms
  | _ => []

/-- The `FanInInput` union type of `fan_in.py`: a dict of source name to
value, a list of values, or an input of some other type.  Python dicts
preserve insertion order, so a dict is embedded as an association list in
key-insertion order. -/
inductive FanInInput
  | dict (entries : List (String × PyVal))
  | list (items : List PyVal)
  | other
deriving DecidableEq

/-- A raised Python exception, as far as this core distinguishes them. -/
inductive PyError
  | valueError (msg : String)
  | typeError (msg : String)
  | workerError (msg : String)
deriving DecidableEq

/-- `FanIn.aggregate_agent_messages` (fan_in.py lines 257-293): every message
of every agent is rendered as `"Agent <name>: <str(msg)>"`, an agent's lines
are joined with one line break, agents are joined with a double line break,
and a fixed banner is prepended.  An empty dict returns `""`. -/
def aggregate_agent_messages (messages : List (String × List Msg)) : String :=
  if messages.isEmpty then ""
  else
    let aggregated := messages.map fun p =>
      String.intercalate "\n" (p.2.map fun m => "Agent " ++ p.1 ++ ": " ++ strOfMsg m)
    "Aggregated responses from multiple Agents:\n\n" ++ String.intercalate "\n\n" aggregated

/-- `FanIn.aggregate_agent_message_strings` (fan_in.py lines 295-316). -/
def aggregate_agent_message_strings (messages : List (String × String)) : String :=
  if messages.isEmpty then ""
  else
    let aggregated := messages.map fun p => "Agent " ++ p.1 ++ ": " ++ p.2
    "Aggregated responses from multiple Agents:\n\n" ++ String.intercalate "\n\n" aggregated

/-- Python `"\n".join(xs)` over a list of message values: raises `TypeError`
unless every element is a `str`; joins the raw strings. -/
def joinPy (ms : List Msg) : Except PyError String := do
  let ss ← ms.mapM fun m =>
    match m with
    | Msg.str s => Except.ok s
    | Msg.obj _ => Except.error (PyError.typeError "sequence item: expected str instance")
  return String.intercalate "\n" ss

/-- `FanIn.aggregate_message_lists` (fan_in.py lines 318-352).  The source
also builds `source_message_strings`, holding each unit rendered with a
`"Source i: "` label, but line 345 then joins the raw `source_messages`
instead, so that computation has no effect on the result (and non-`str`
messages make the join raise `TypeError`). -/
def aggregate_message_lists (messages : List (List Msg)) : Except PyError String :=
  if messages.isEmpty then Except.ok ""
  else do
    let aggregated ← messages.mapM joinPy
    return "Aggregated responses from multiple sources:\n\n" ++ String.intercalate "\n\n" aggregated

/-- `FanIn.aggregate_message_strings` (fan_in.py lines 354-377): element `i`
(1-based, `enumerate(messages, 1)`) renders as `"Source i: <element>"`,
joined with double line breaks under a fixed banner. -/
def aggregate_message_strings (messages : List String) : String :=
  if messages.isEmpty then ""
  else
    let aggregated := (List.enumFrom 1 messages).map fun p =>
      "Source " ++ toString p.1 ++ ": " ++ p.2
    "Aggregated responses from multiple sources:\n\n" ++ String.intercalate "\n\n" aggregated

/-- `FanIn.aggregate_messages` (fan_in.py lines 174-254): the shape
dispatcher.  A dict branches on the type of its first value, requiring all
values to share that shape; a list branches on its first item likewise;
empty containers and unrecognized shapes raise `ValueError`. -/
def aggregate_messages : FanInInput → Except PyError String
  | FanInInput.dict [] =>
      Except.error (PyError.valueError "Input dictionary cannot be empty")
  | FanInInput.dict (first :: rest) =>
      match first.2 with
      | PyVal.list _ =>
          if ((first :: rest).map Prod.snd).any (fun v => !(PyVal.isList v)) then
            Except.error (PyError.valueError "All dictionary values must be lists of messages")
          else
            Except.ok (aggregate_agent_messages
              ((first :: rest).map fun p => (p.1, PyVal.asMsgs p.2)))
      | PyVal.str _ =>
          if ((first :: rest).map Prod.snd).any (fun v => !(PyVal.isStr v)) then
            Except.error (PyError.valueError "All dictionary values must be strings")
          else
            Except.ok (aggregate_agent_message_strings
              ((first :: rest).map fun p => (p.1, PyVal.asString p.2)))
      | PyVal.other =>
          Except.error (PyError.valueError "Dictionary values must be either lists of messages or strings")
  | FanInInput.list [] =>
      Except.error (PyError.valueError "Input list cannot be empty")
  | FanInInput.list (first :: rest) =>
      match first with
      | PyVal.list _ =>
          if (first :: rest).any (fun v => !(PyVal.isList v)) then
            Except.error (PyError.valueError "All list items must be lists of messages")
          else
            aggregate_message_lists ((first :: rest).map PyVal.asMsgs)
      | PyVal.str _ =>
          if (first :: rest).any (fun v => !(PyVal.isStr v)) then
            Except.error (PyError.valueError "All list items must be strings")
          else
            Except.ok (aggregate_message_strings ((first :: rest).map PyVal.asString))
      | PyVal.other =>
          Except.error (PyError.valueError "List items must be either lists of messages or strings")
  | FanInInput.other =>
      Except.error (PyError.valueError "Input must be either a dictionary of agent messages or a list of messages")

/-- The dictionary values / list items of a `FanInInput`. -/
def elemsOf : FanInInput → List PyVal
  | FanInInput.dict entries => entries.map Prod.snd
  | FanInInput.list items => items
  | FanInInput.other => []

/-- Whether a result is a raised `ValueError`. -/
def isValueError : Except PyError String → Bool
  | Except.error (PyError.valueError _) => true
  | _ => false

/-- The attribution segment one `(agent_name, message)` pair contributes in
`aggregate_agent_message_strings`. -/
def agentLine (p : String × String) : String :=
  "Agent " ++ p.1 ++ ": " ++ p.2

/-- The per-agent segments joined by `"\n\n"` in
`aggregate_agent_message_strings`. -/
def stringSegments (kvs : List (String × String)) : List String :=
  kvs.map agentLine

/-- The segment one `(agent_name, messages)` pair contributes in
`aggregate_agent_messages`. -/
def agentMsgSegment (p : String × List Msg) : String :=
  String.intercalate "\n" (p.2.map fun m => "Agent " ++ p.1 ++ ": " ++ strOfMsg m)

/-- The per-agent segments joined by `"\n\n"` in `aggregate_agent_messages`. -/
def msgSegments (kvs : List (String × List Msg)) : List String :=
  kvs.map agentMsgSegment

/-- Whether `aggregator_agent` is already an `AugmentedLLM`
(`isinstance(self.aggregator_agent, AugmentedLLM)` in fan_in.py) or a plain
`Agent` needing scoped activation. -/
inductive AggregatorKind
  | augmentedLLM
  | agent
deriving DecidableEq

/-- The fields of a constructed `FanIn` instance that the claims exercise. -/
structure FanInCfg where
  kind : AggregatorKind
  hasFactory : Bool
deriving DecidableEq

/-- `FanIn.__init__` (fan_in.py lines 39-58): after storing the aggregator
and factory, raises `ValueError` when the aggregator is not an
`AugmentedLLM` and no `llm_factory` was supplied (`if not self.llm_factory`). -/
def FanIn_init (kind : AggregatorKind) (hasFactory : Bool) : Except PyError FanInCfg :=
  match kind with
  | AggregatorKind.augmentedLLM => Except.ok ⟨kind, hasFactory⟩
  | AggregatorKind.agent =>
      if hasFactory then Except.ok ⟨kind, hasFactory⟩
      else Except.error (PyError.valueError "llm_factory is required when using an Agent")

/-- Observable side effects of one `FanIn.generate*` call: how many times the
agent context was entered (`stack.enter_async_context`), exited (the
`AsyncExitStack` unwind), the LLM attached, and the worker LLM invoked. -/
structure FIState where
  enters : Nat
  exits : Nat
  attachCalls : Nat
  workerCalls : Nat
deriving DecidableEq

/-- Lift an exception raised by the worker LLM into this core's error type;
fan_in.py has no handler, so the exception propagates unchanged. -/
def liftWorker {α : Type} : Except String α → Except PyError α
  | Except.ok a => Except.ok a
  | Except.error e => Except.error (PyError.workerError e)

/-- `async with contextlib.AsyncExitStack()` with the aggregator agent
entered on it: the entered context's exit handler runs on every exit path,
including when the body raises (the body's outcome is a value of `Except`,
so the exit step below is unconditional, mirroring the `AsyncExitStack`
unwind guarantee). -/
def scopedAgent {α : Type} (body : FIState → Except PyError α × FIState)
    (s : FIState) : Except PyError α × FIState :=
  let s1 := { s with enters := s.enters + 1 }
  let (r, s2) := body s1
  (r, { s2 with exits := s2.exits + 1 })

/-- `FanIn.generate` (fan_in.py lines 60-94): aggregate the input (raising
aborts before any context is entered), then either call the aggregator LLM
directly, or enter the agent context, attach an LLM and call it, with the
exit stack unwinding on every path.  The worker is invoked exactly once and
its result (or exception) is returned unchanged. -/
def FanIn_generate {α : Type} (kind : AggregatorKind) (messages : FanInInput)
    (worker : String → Except String α) (s : FIState) : Except PyError α × FIState :=
  match aggregate_messages messages with
  | Except.error err => (Except.error err, s)
  | Except.ok message =>
      match kind with
      | AggregatorKind.augmentedLLM =>
          (liftWorker (worker message), { s with workerCalls := s.workerCalls + 1 })
      | AggregatorKind.agent =>
          scopedAgent (fun s1 =>
            let s2 := { s1 with attachCalls := s1.attachCalls + 1 }
            (liftWorker (worker message), { s2 with workerCalls := s2.workerCalls + 1 })) s

/-- `FanIn.generate_str` (fan_in.py lines 96-132): same control flow as
`generate`, calling the worker's `generate_str`. -/
def FanIn_generate_str {α : Type} (kind : AggregatorKind) (messages : FanInInput)
    (worker : String → Except String α) (s : FIState) : Except PyError α × FIState :=
  match aggregate_messages messages with
  | Except.error err => (Except.error err, s)
  | Except.ok message =>
      match kind with
      | AggregatorKind.augmentedLLM =>
          (liftWorker (worker message), { s with workerCalls := s.workerCalls + 1 })
      | AggregatorKind.agent =>
          scopedAgent (fun s1 =>
            let s2 := { s1 with attachCalls := s1.attachCalls + 1 }
            (liftWorker (worker message), { s2 with workerCalls := s2.workerCalls + 1 })) s

/-- `FanIn.generate_structured` (fan_in.py lines 134-172): same control flow
as `generate`, calling the worker's `generate_structured`. -/
def FanIn_generate_structured {α : Type} (kind : AggregatorKind) (messages : FanInInput)
    (worker : String → Except String α) (s : FIState) : Except PyError α × FIState :=
  match aggregate_messages messages with
  | Except.error err => (Except.error err, s)
  | Except.ok message =>
      match kind with
      | AggregatorKind.augmentedLLM =>
          (liftWorker (worker message), { s with workerCalls := s.workerCalls + 1 })
      | AggregatorKind.agent =>
          scopedAgent (fun s1 =>
            let s2 := { s1 with attachCalls := s1.attachCalls + 1 }
            (liftWorker (worker message), { s2 with workerCalls := s2.workerCalls + 1 })) s

/-! ## Execution context lifecycle (context.py)

`Context` instances are identified by the order in which they were created
(`nextId` is the identity supply).  The module state of context.py is the
`_global_context` variable plus the logging pipeline's started/shutdown
flag; `initCount` counts completed runs of `initialize_context`. -/

/-- The module-level state of context.py. -/
structure CtxState where
  globalCtx : Option Nat
  nextId : Nat
  initCount : Nat
  loggingActive : Bool
deriving DecidableEq

/-- `initialize_context` (context.py lines 109-128): builds a fresh `Context`
(config, server registry, tracer), configures logging/telemetry, and returns
the new instance.  It does not read or write `_global_context`. -/
def initialize_context (s : CtxState) : Nat × CtxState :=
  (s.nextId,
   { s with nextId := s.nextId + 1, initCount := s.initCount + 1, loggingActive := true })

/-- `cleanup_context` (context.py lines 131-137): only
`await LoggingConfig.shutdown()`; `_global_context` is left untouched and no
closed marker is set. -/
def cleanup_context (s : CtxState) : CtxState :=
  { s with loggingActive := false }

/-- `aget_current_context` (context.py lines 169-176): plain
check-then-initialize on `_global_context`, with no lock. -/
def aget_current_context (s : CtxState) : Nat × CtxState :=
  match s.globalCtx with
  | some c => (c, s)
  | none =>
      let (c, s1) := initialize_context s
      (c, { s1 with globalCtx := some c })

/-- `get_current_context` (context.py lines 143-166): the same unguarded
check-then-initialize; its three event-loop branches (running loop → worker
thread with a private loop, idle loop → `run_until_complete`, no loop →
`asyncio.run`) all drive `initialize_context` to completion and assign the
result to `_global_context`. -/
def get_current_context (s : CtxState) : Nat × CtxState :=
  match s.globalCtx with
  | some c => (c, s)
  | none =>
      let (c, s1) := initialize_context s
      (c, { s1 with globalCtx := some c })

/-- Program counter of one caller of the context accessor.  `start` is
before the `_global_context is None` check; `midInit` is after observing
`None`, while `initialize_context` is in flight (its `await`s of
`configure_otel` / `configure_logger` are suspension points, and the sync
path blocks in a worker thread); the check→`midInit` and
init-completion→assignment→return steps are each atomic in the source. -/
inductive CallerPC
  | start
  | midInit
  | done (c : Nat)
deriving DecidableEq

/-- One atomic step of a caller of `get_current_context` /
`aget_current_context`. -/
def callerStep (s : CtxState) : CallerPC → CallerPC × CtxState
  | CallerPC.start =>
      match s.globalCtx with
      | some c => (CallerPC.done c, s)
      | none => (CallerPC.midInit, s)
  | CallerPC.midInit =>
      let (c, s1) := initialize_context s
      (CallerPC.done c, { s1 with globalCtx := some c })
  | CallerPC.done c => (CallerPC.done c, s)

/-- Two concurrent callers racing on the shared module state. -/
structure TwoCallers where
  a : CallerPC
  b : CallerPC
  st : CtxState
deriving DecidableEq

/-- Run one step of the scheduled caller (`true` steps caller `a`). -/
def schedStep (t : TwoCallers) (pickA : Bool) : TwoCallers :=
  if pickA then
    let (a1, s1) := callerStep t.st t.a
    { t with a := a1, st := s1 }
  else
    let (b1, s1) := callerStep t.st t.b
    { t with b := b1, st := s1 }

/-- Run a whole interleaving schedule. -/
def runSched (sched : List Bool) (t : TwoCallers) : TwoCallers :=
  sched.foldl schedStep t

/-- Both callers at their first access, fresh module state. -/
def initialTwo : TwoCallers :=
  ⟨CallerPC.start, CallerPC.start, ⟨none, 0, 0, false⟩⟩

/-- A worker LLM whose invocation always raises. -/
def boomWorker : String → Except String Nat :=
  fun _ => Except.error "boom"

/-! ## Claims -/

/-- Claim C5: `aggregate_messages` on `{"A": "result one", "B": "result two"}`
returns exactly
`"Aggregated responses from multiple Agents:\n\nAgent A: result one\n\nAgent B: result two"`,
and on `["x", "y"]` returns exactly
`"Aggregated responses from multiple sources:\n\nSource 1: x\n\nSource 2: y"`. -/
theorem C5_concrete_scenarios :
    aggregate_messages (FanInInput.dict [("A", PyVal.str "result one"), ("B", PyVal.str "result two")])
      = Except.ok "Aggregated responses from multiple Agents:\n\nAgent A: result one\n\nAgent B: result two"
    ∧ aggregate_messages (FanInInput.list [PyVal.str "x", PyVal.str "y"])
      = Except.ok "Aggregated responses from multiple sources:\n\nSource 1: x\n\nSource 2: y" :=
  ⟨rfl, rfl⟩

/-- Claim C8: the empty mapping and the empty list both make
`aggregate_messages` raise `ValueError` rather than return any merged
result. -/
theorem C8_empty_container_raises :
    aggregate_messages (FanInInput.dict [])
      = Except.error (PyError.valueError "Input dictionary cannot be empty")
    ∧ aggregate_messages (FanInInput.list [])
      = Except.error (PyError.valueError "Input list cannot be empty") :=
  ⟨rfl, rfl⟩

/-- Claim C1 (code bug, evaluation at the failing input): for the uniform
message-sequence list `[["hello"], ["world"]]`, `aggregate_messages` returns
the units with no `"Source i: "` label at all — `fan_in.py:345` joins the raw
`source_messages` instead of the `source_message_strings` it just built — so
the substring `"Source"` never occurs in the output, contradicting the
claimed per-element labelling. -/
theorem C1_labels_dropped_eval :
    aggregate_messages (FanInInput.list [PyVal.list [Msg.str "hello"], PyVal.list [Msg.str "world"]])
      = Except.ok "Aggregated responses from multiple sources:\n\nhello\n\nworld"
    ∧ ¬ List.IsInfix "Source".toList
        "Aggregated responses from multiple sources:\n\nhello\n\nworld".toList :=
  ⟨rfl, by decide⟩

/-- Claim C10: constructing a `FanIn` whose aggregator is a plain `Agent`
(not an `AugmentedLLM`) with `llm_factory = None` raises `ValueError` at
construction time; every other combination constructs successfully, so the
error is specific to that configuration. -/
theorem C10_init_requires_factory :
    FanIn_init AggregatorKind.agent false
      = Except.error (PyError.valueError "llm_factory is required when using an Agent")
    ∧ (∀ f : Bool, FanIn_init AggregatorKind.augmentedLLM f
        = Except.ok ⟨AggregatorKind.augmentedLLM, f⟩)
    ∧ FanIn_init AggregatorKind.agent true = Except.ok ⟨AggregatorKind.agent, true⟩ := by
  refine ⟨rfl, ?_, rfl⟩
  intro f
  rfl

/-- Claim C2 (counterexample): two concurrent first callers of the context
accessor, interleaved check-check-init-init (schedule `[A, B, A, B]`), make
`initialize_context` run twice and end holding two distinct `Context`
instances — the check-then-initialize in context.py is unguarded, refuting
"runs exactly once and all callers receive the same instance". -/
theorem C2_race_counterexample :
    (runSched [true, false, true, false] initialTwo).st.initCount = 2
    ∧ (runSched [true, false, true, false] initialTwo).a
        ≠ (runSched [true, false, true, false] initialTwo).b := by
  decide

/-- Claim C2 (amended): once the global context has been published, every
later (non-overlapping) accessor call — sync or async — returns that same
instance and runs no further initialization; single initialization is only
guaranteed for non-concurrent first calls. -/
theorem C2_sequential_idempotent (s : CtxState) (c : Nat)
    (h : s.globalCtx = some c) :
    aget_current_context s = (c, s) ∧ get_current_context s = (c, s) := by
  constructor <;> simp [aget_current_context, get_current_context, h]

/-- Witness for `C2_sequential_idempotent` at a concrete ready state. -/
theorem C2_sequential_idempotent_witness :
    (CtxState.mk (some 5) 6 1 true).globalCtx = some 5
    ∧ aget_current_context (CtxState.mk (some 5) 6 1 true)
        = (5, CtxState.mk (some 5) 6 1 true)
    ∧ get_current_context (CtxState.mk (some 5) 6 1 true)
        = (5, CtxState.mk (some 5) 6 1 true) :=
  ⟨rfl, (C2_sequential_idempotent (CtxState.mk (some 5) 6 1 true) 5 rfl).1,
    (C2_sequential_idempotent (CtxState.mk (some 5) 6 1 true) 5 rfl).2⟩

/-- Claim C3 (counterexample): initialize via `get_current_context`, run
`cleanup_context`, then access again: the accessor returns the stale
`Context` (id 0) with no error — `cleanup_context` only shuts down logging,
never clears `_global_context`, and no `ContextClosedError` exists in the
code — refuting "fails with ContextClosedError rather than returning the
stale context". -/
theorem C3_stale_counterexample :
    get_current_context (cleanup_context (get_current_context ⟨none, 0, 0, false⟩).2)
      = (0, ⟨some 0, 1, 1, false⟩) := by
  decide

/-- Claim C3 (amended): after `cleanup_context`, the global context is still
published, and both accessors return the stale instance unchanged (the code
defines no `ContextClosedError` and performs no closed-state check). -/
theorem C3_stale_after_cleanup (s : CtxState) (c : Nat)
    (h : s.globalCtx = some c) :
    (cleanup_context s).globalCtx = some c
    ∧ get_current_context (cleanup_context s) = (c, cleanup_context s)
    ∧ aget_current_context (cleanup_context s) = (c, cleanup_context s) := by
  refine ⟨?_, ?_, ?_⟩ <;>
    simp [cleanup_context, get_current_context, aget_current_context, h]

/-- Witness for `C3_stale_after_cleanup` at a concrete ready state. -/
theorem C3_stale_after_cleanup_witness :
    (CtxState.mk (some 3) 4 1 true).globalCtx = some 3
    ∧ (cleanup_context (CtxState.mk (some 3) 4 1 true)).globalCtx = some 3
    ∧ get_current_context (cleanup_context (CtxState.mk (some 3) 4 1 true))
        = (3, cleanup_context (CtxState.mk (some 3) 4 1 true)) :=
  ⟨rfl, (C3_stale_after_cleanup (CtxState.mk (some 3) 4 1 true) 3 rfl).1,
    (C3_stale_after_cleanup (CtxState.mk (some 3) 4 1 true) 3 rfl).2.1⟩

/-- Claim C6: for every non-empty string-valued mapping, the aggregated
output is the fixed banner followed by exactly one attribution segment per
key, joined by double line breaks, and segment `i` carries the `i`-th
supplied key — insertion order, never reordered. -/
theorem C6_attribution_per_key (kvs : List (String × String)) (h : kvs ≠ []) :
    aggregate_agent_message_strings kvs
      = "Aggregated responses from multiple Agents:\n\n"
        ++ String.intercalate "\n\n" (stringSegments kvs)
    ∧ (stringSegments kvs).length = kvs.length
    ∧ ∀ (i : Nat) (k v : String), kvs[i]? = some (k, v) →
        (stringSegments kvs)[i]? = some ("Agent " ++ k ++ ": " ++ v) := by
  have hne : kvs.isEmpty = false := by
    cases kvs with
    | nil => exact absurd rfl h
    | cons x xs => rfl
  refine ⟨?_, by simp [stringSegments], ?_⟩
  · unfold aggregate_agent_message_strings
    rw [hne]
    rfl
  · intro i k v hi
    simp [stringSegments, agentLine, List.getElem?_map, hi]

/-- Witness for `C6_attribution_per_key` on a mapping whose insertion order
is not alphabetical. -/
theorem C6_attribution_per_key_witness :
    (([("B", "two"), ("A", "one")] : List (String × String)) ≠ [])
    ∧ aggregate_agent_message_strings [("B", "two"), ("A", "one")]
        = "Aggregated responses from multiple Agents:\n\n"
          ++ String.intercalate "\n\n" (stringSegments [("B", "two"), ("A", "one")]) :=
  ⟨by decide, (C6_attribution_per_key [("B", "two"), ("A", "one")] (by decide)).1⟩

/-- Claim C4 (counterexample): in the mapping
`{"A": [], "B": ["hi"]}` the source `A` has an empty message-list payload;
the aggregated output contains no `"Agent A"` attribution at all — the empty
payload contributes only an empty segment between separators — refuting
"still emits that source's attribution line with an empty body". -/
theorem C4_empty_list_counterexample :
    aggregate_messages (FanInInput.dict [("A", PyVal.list []), ("B", PyVal.list [Msg.str "hi"])])
      = Except.ok "Aggregated responses from multiple Agents:\n\n\n\nAgent B: hi"
    ∧ ¬ List.IsInfix "Agent A".toList
        "Aggregated responses from multiple Agents:\n\n\n\nAgent B: hi".toList :=
  ⟨rfl, by decide⟩

/-- Claim C4 (amended): an empty-string payload in a string-valued mapping
still emits its attribution line with an empty body (`"Agent k: "`), while an
empty message-list payload contributes only an empty segment — the
double-line-break separators still mark the source's position, but no
attribution label is rendered for it. -/
theorem C4_empty_payload_rendering
    (kvs : List (String × String)) (k : String)
    (hne : kvs ≠ []) (hmem : (k, "") ∈ kvs)
    (mvs : List (String × List Msg)) (k2 : String)
    (hne2 : mvs ≠ []) (hmem2 : (k2, ([] : List Msg)) ∈ mvs) :
    ("Agent " ++ k ++ ": ") ∈ stringSegments kvs
    ∧ aggregate_agent_message_strings kvs
        = "Aggregated responses from multiple Agents:\n\n"
          ++ String.intercalate "\n\n" (stringSegments kvs)
    ∧ ("" : String) ∈ msgSegments mvs
    ∧ aggregate_agent_messages mvs
        = "Aggregated responses from multiple Agents:\n\n"
          ++ String.intercalate "\n\n" (msgSegments mvs) := by
  have hne' : kvs.isEmpty = false := by
    cases kvs with
    | nil => exact absurd rfl hne
    | cons x xs => rfl
  have hne2' : mvs.isEmpty = false := by
    cases mvs with
    | nil => exact absurd rfl hne2
    | cons x xs => rfl
  refine ⟨?_, ?_, ?_, ?_⟩
  · refine List.mem_map.mpr ⟨(k, ""), hmem, ?_⟩
    show "Agent " ++ k ++ ": " ++ "" = "Agent " ++ k ++ ": "
    exact String.append_empty _
  · unfold aggregate_agent_message_strings
    rw [hne']
    rfl
  · exact List.mem_map.mpr ⟨(k2, []), hmem2, rfl⟩
  · unfold aggregate_agent_messages
    rw [hne2']
    rfl

/-- Witness for `C4_empty_payload_rendering` at one-element mappings with
empty payloads. -/
theorem C4_empty_payload_rendering_witness :
    (([("A", "")] : List (String × String)) ≠ [])
    ∧ (("A", "") ∈ ([("A", "")] : List (String × String)))
    ∧ (([("B", ([] : List Msg))] : List (String × List Msg)) ≠ [])
    ∧ (("B", ([] : List Msg)) ∈ ([("B", ([] : List Msg))] : List (String × List Msg)))
    ∧ ("Agent " ++ "A" ++ ": ") ∈ stringSegments [("A", "")]
    ∧ ("" : String) ∈ msgSegments [("B", ([] : List Msg))] := by
  refine ⟨by decide, by decide, by decide, by decide, ?_, ?_⟩
  · exact (C4_empty_payload_rendering [("A", "")] "A" (by decide) (by decide)
      [("B", ([] : List Msg))] "B" (by decide) (by decide)).1
  · exact (C4_empty_payload_rendering [("A", "")] "A" (by decide) (by decide)
      [("B", ([] : List Msg))] "B" (by decide) (by decide)).2.2.1

/-- Claim C7: whenever the container's elements are not uniformly strings and
not uniformly message lists — which covers every mixed-shape input and every
input containing an element of unrecognized type — `aggregate_messages`
raises `ValueError` and never returns a merged result. -/
theorem C7_mixed_shapes_raise (inp : FanInInput)
    (hne : elemsOf inp ≠ [])
    (hstr : (elemsOf inp).any (fun v => !(PyVal.isStr v)) = true)
    (hlist : (elemsOf inp).any (fun v => !(PyVal.isList v)) = true) :
    isValueError (aggregate_messages inp) = true := by
  cases inp with
  | other => exact absurd rfl hne
  | dict entries =>
      cases entries with
      | nil => exact absurd rfl hne
      | cons first rest =>
          obtain ⟨k, v⟩ := first
          cases v with
          | str s =>
              have hcond :
                  ((((k, PyVal.str s) :: rest).map Prod.snd).any
                    fun v => !(PyVal.isStr v)) = true := hstr
              dsimp only [aggregate_messages]
              rw [if_pos hcond]
              rfl
          | list ms =>
              have hcond :
                  ((((k, PyVal.list ms) :: rest).map Prod.snd).any
                    fun v => !(PyVal.isList v)) = true := hlist
              dsimp only [aggregate_messages]
              rw [if_pos hcond]
              rfl
          | other => rfl
  | list items =>
      cases items with
      | nil => exact absurd rfl hne
      | cons first rest =>
          cases first with
          | str s =>
              have hcond :
                  ((PyVal.str s :: rest).any fun v => !(PyVal.isStr v)) = true := hstr
              dsimp only [aggregate_messages]
              rw [if_pos hcond]
              rfl
          | list ms =>
              have hcond :
                  ((PyVal.list ms :: rest).any fun v => !(PyVal.isList v)) = true := hlist
              dsimp only [aggregate_messages]
              rw [if_pos hcond]
              rfl
          | other => rfl

/-- Witness for `C7_mixed_shapes_raise` on a mapping mixing a string value
with a message-list value. -/
theorem C7_mixed_shapes_raise_witness :
    elemsOf (FanInInput.dict [("A", PyVal.str "x"), ("B", PyVal.list [])]) ≠ []
    ∧ (elemsOf (FanInInput.dict [("A", PyVal.str "x"), ("B", PyVal.list [])])).any
        (fun v => !(PyVal.isStr v)) = true
    ∧ (elemsOf (FanInInput.dict [("A", PyVal.str "x"), ("B", PyVal.list [])])).any
        (fun v => !(PyVal.isList v)) = true
    ∧ isValueError
        (aggregate_messages (FanInInput.dict [("A", PyVal.str "x"), ("B", PyVal.list [])]))
        = true :=
  ⟨by decide, by decide, by decide,
    C7_mixed_shapes_raise (FanInInput.dict [("A", PyVal.str "x"), ("B", PyVal.list [])])
      (by decide) (by decide) (by decide)⟩

/-- Claim C9: in `generate`, `generate_str` and `generate_structured` with an
aggregator agent needing scoped activation, if the worker invocation raises
then the scoped-activation cleanup (the agent context exit) still runs
exactly once, the worker is invoked exactly once (no retry), and the worker's
exception propagates to the caller unchanged. -/
theorem C9_guaranteed_release {α : Type} (messages : FanInInput) (m : String)
    (worker : String → Except String α) (e : String) (s : FIState)
    (hagg : aggregate_messages messages = Except.ok m)
    (hw : worker m = Except.error e) :
    FanIn_generate AggregatorKind.agent messages worker s
      = (Except.error (PyError.workerError e),
          ⟨s.enters + 1, s.exits + 1, s.attachCalls + 1, s.workerCalls + 1⟩)
    ∧ FanIn_generate_str AggregatorKind.agent messages worker s
      = (Except.error (PyError.workerError e),
          ⟨s.enters + 1, s.exits + 1, s.attachCalls + 1, s.workerCalls + 1⟩)
    ∧ FanIn_generate_structured AggregatorKind.agent messages worker s
      = (Except.error (PyError.workerError e),
          ⟨s.enters + 1, s.exits + 1, s.attachCalls + 1, s.workerCalls + 1⟩) := by
  refine ⟨?_, ?_, ?_⟩ <;>
    simp [FanIn_generate, FanIn_generate_str, FanIn_generate_structured,
      hagg, hw, scopedAgent, liftWorker]

/-- Witness for `C9_guaranteed_release` with a worker that always raises. -/
theorem C9_guaranteed_release_witness :
    aggregate_messages (FanInInput.list [PyVal.str "x"])
      = Except.ok "Aggregated responses from multiple sources:\n\nSource 1: x"
    ∧ boomWorker "Aggregated responses from multiple sources:\n\nSource 1: x"
      = Except.error "boom"
    ∧ FanIn_generate AggregatorKind.agent (FanInInput.list [PyVal.str "x"]) boomWorker ⟨0, 0, 0, 0⟩
      = (Except.error (PyError.workerError "boom"), ⟨1, 1, 1, 1⟩) :=
  ⟨rfl, rfl, by
    have h := C9_guaranteed_release (FanInInput.list [PyVal.str "x"])
      "Aggregated responses from multiple sources:\n\nSource 1: x"
      boomWorker "boom" ⟨0, 0, 0, 0⟩ rfl rfl
    simpa using h.1⟩

end McpAgent
